import Mathlib

/-!
Shallow embedding of `phase_o_matic/download.py` (function `download_era`).

The Python function validates its inputs (credentials file, output directory,
date range, subset bounds), builds a CDS request dictionary, derives an output
file path, and delegates to `cdsapi.Client.retrieve` unless the target file
already exists and `overwrite` is false.

The embedding models:
  - timestamps as year/month/day/hour/minute records (ordering lexicographic,
    which agrees with chronological order on valid dates);
  - geographic coordinates as rationals (the Python code uses IEEE floats; all
    bound arithmetic here is max/min/abs/add/sub, which rationals capture);
  - the filesystem and the external world as explicit parameters: whether the
    `~/.cdsapirc` file exists, whether the output directory exists, and a
    predicate giving existence of files by path;
  - the external `cdsapi` retrieval call as an emitted `Effect`, so the result
    of `download_era` is a pair of the returned value (or validation error)
    and the list of external calls performed.
-/

attribute [local semireducible] Rat.add Rat.sub Rat.mul Rat.inv

/-- A timestamp with minute precision, standing for the `pd.Timestamp` /
`datetime` values of the Python code. -/
structure Timestamp where
  year : Nat
  month : Nat
  day : Nat
  hour : Nat
  minute : Nat
deriving DecidableEq, Repr

/-- Chronological strict order, lexicographic on the fields (which matches
`datetime.__lt__` for in-range field values). -/
def Timestamp.lt (a b : Timestamp) : Bool :=
  if a.year ≠ b.year then decide (a.year < b.year)
  else if a.month ≠ b.month then decide (a.month < b.month)
  else if a.day ≠ b.day then decide (a.day < b.day)
  else if a.hour ≠ b.hour then decide (a.hour < b.hour)
  else decide (a.minute < b.minute)

/-- The `date` argument of `download_era`: either an already-constructed
timestamp, or a string, represented by the outcome of `pd.to_datetime` on it
(`none` when the string is unparsable). -/
inductive DateInput where
  | ts (t : Timestamp)
  | str (parsed : Option Timestamp)
deriving DecidableEq, Repr

/-- The timestamp a `DateInput` converts to, following
`if isinstance(date, str): date = pd.to_datetime(date)`. -/
def DateInput.toTimestamp : DateInput → Option Timestamp
  | .ts t => some t
  | .str p => p

/-- A shapely polygon, reduced to what `download_era` observes of it: its
bounds tuple `(minx, miny, maxx, maxy) = (w, s, e, n)` and its truthiness
(`bool(geom)` is `not geom.is_empty` in shapely). -/
structure Polygon where
  w : ℚ
  s : ℚ
  e : ℚ
  n : ℚ
  is_empty : Bool
deriving DecidableEq, Repr

/-- The CDS request dictionary `indict` built by `download_era`. -/
structure Indict where
  product_type : String
  format : String
  «variable» : List String
  pressure_level : List String
  date : String
  time : String
  area : Option String
deriving DecidableEq, Repr

/-- The failures `download_era` can raise before any external call: one per
`assert` in the source (plus the `pd.to_datetime` parse failure). -/
inductive DownloadError where
  | missingCredentials
  | missingDirectory (dir : String)
  | unparsableDate
  | dateInFuture
  | dateBefore1940
  | boundOutside (bound : String) (value : ℚ)
deriving DecidableEq, Repr

/-- An external call performed by `download_era`: the single
`c.retrieve(dataset, indict, target)` call. -/
inductive Effect where
  | retrieve (dataset : String) (request : Indict) (target : String)
deriving DecidableEq, Repr

/-- The value returned on success: the output path, together with the request
dictionary that was built for it. -/
structure EraOutcome where
  out_fp : String
  indict : Indict
deriving DecidableEq, Repr

/-- Left-pad a natural to two digits, as `strftime` does for `%m`, `%d`, `%H`. -/
def pad2 (n : Nat) : String :=
  if n < 10 then "0" ++ toString n else toString n

/-- Left-pad a natural to four digits, as `strftime` does for `%Y`. -/
def pad4 (n : Nat) : String :=
  if n < 10 then "000" ++ toString n
  else if n < 100 then "00" ++ toString n
  else if n < 1000 then "0" ++ toString n
  else toString n

/-- `date.strftime('%Y-%m-%d')`. -/
def strfDate (t : Timestamp) : String :=
  pad4 t.year ++ "-" ++ pad2 t.month ++ "-" ++ pad2 t.day

/-- `date.strftime('%H:00')` — note the minutes are not printed. -/
def strfTime (t : Timestamp) : String :=
  pad2 t.hour ++ ":00"

/-- `date.strftime('%Y-%m-%dT%H:00')`, the stamp inside the output filename. -/
def strfStamp (t : Timestamp) : String :=
  strfDate t ++ "T" ++ pad2 t.hour ++ ":00"

/-- `abs` of a rational by sign test, as Python's `abs` computes it (and with
kernel-reducible arithmetic). -/
def rabs (q : ℚ) : ℚ := if q < 0 then -q else q

/-- `np.maximum` on two rationals. -/
def rmax (a b : ℚ) : ℚ := if a ≤ b then b else a

/-- `np.minimum` on two rationals. -/
def rmin (a b : ℚ) : ℚ := if b ≤ a then b else a

/-- Decimal digits of the fractional part `x ∈ [0,1)` of a rational, with
fuel bounding the number of digits (17 suffices for every value a Python
float prints exactly). -/
def fracDigits : Nat → ℚ → String
  | 0, _ => ""
  | fuel + 1, x =>
    if x = 0 then ""
    else
      let y := x * 10
      let d := y.floor.toNat
      (Nat.digitChar d).toString ++ fracDigits fuel (y - (d : ℚ))

/-- `str(b)` for a Python float holding the rational `q`: sign, integer part,
a dot, and the fractional digits (at least one, so `-30` prints `"-30.0"`). -/
def pyFloatStr (q : ℚ) : String :=
  let sign := if q < 0 then "-" else ""
  let a := rabs q
  let frac := fracDigits 17 (a - (a.floor : ℚ))
  sign ++ toString a.floor.toNat ++ "." ++ (if frac = "" then "0" else frac)

/-- Round a rational to the nearest integer, ties to even — the rounding of
Python float formatting. -/
def roundHalfEven (q : ℚ) : Int :=
  let f := q.floor
  let r := q - (f : ℚ)
  if r < 1 / 2 then f
  else if 1 / 2 < r then f + 1
  else if f % 2 = 0 then f else f + 1

/-- `f'{b:.2f}'`: the value formatted with exactly two decimal places. -/
def format2 (q : ℚ) : String :=
  let c := roundHalfEven (q * 100)
  let sign := if q < 0 then "-" else ""
  let a := c.natAbs
  sign ++ toString (a / 100) ++ "." ++ pad2 (a % 100)

/-- The fixed 37-element pressure-level list of the source. -/
def era_pressure_lvls : List String :=
  ["1", "2", "3", "5", "7", "10", "20", "30", "50", "70", "100", "125",
   "150", "175", "200", "225", "250", "300", "350", "400", "450", "500",
   "550", "600", "650", "700", "750", "775", "800", "825", "850", "875",
   "900", "925", "950", "975", "1000"]

/-- The request dictionary as first assembled (before the optional `area`
entry is added). -/
def baseIndict (humid_param : String) (d : Timestamp) : Indict :=
  { product_type := "reanalysis"
    format := "netcdf"
    «variable» := ["geopotential", "temperature", humid_param]
    pressure_level := era_pressure_lvls
    date := strfDate d
    time := strfTime d
    area := none }

/-- The line-of-sight expansion block of the source, faithfully sequential:
`w` is reassigned before `e`'s delta `abs(e - w)` is computed, and `s` before
`n`'s delta `abs(n - s)`, so the east and north deltas use the already-moved
west and south bounds. -/
def expandLOS (w s e n : ℚ) : ℚ × ℚ × ℚ × ℚ :=
  let w := rmax (w - rabs (e - w)) (-180)
  let e := rmin (e + rabs (e - w)) 180
  let s := rmax (s - rabs (n - s)) (-90)
  let n := rmin (n + rabs (n - s)) 90
  (w, s, e, n)

/-- The bounds used for the `area` entry and the filename suffix: the raw
subset bounds, run through `expandLOS` when the LOS flag is set. -/
def finalBounds (p : Polygon) (LOS : Bool) : ℚ × ℚ × ℚ × ℚ :=
  if LOS then expandLOS p.w p.s p.e p.n else (p.w, p.s, p.e, p.n)

/-- `indict['area'] = '/'.join([str(b) for b in [n, w, s, e]])`. -/
def areaField (p : Polygon) (LOS : Bool) : String :=
  match finalBounds p LOS with
  | (w, s, e, n) => String.intercalate "/" (List.map pyFloatStr [n, w, s, e])

/-- The underscore-joined bound suffix appended to the filename stem:
`'_'.join([f'{b:.2f}' for b in [w, s, e, n]])`. -/
def suffixField (p : Polygon) (LOS : Bool) : String :=
  match finalBounds p LOS with
  | (w, s, e, n) => String.intercalate "_" (List.map format2 [w, s, e, n])

/-- The validation and request-building phase of `download_era`: everything up
to (but not including) the cache check and the `c.retrieve` call. Returns the
request dictionary and the derived output path, or the first validation error,
in source order: credentials file, directory, date parse, date range, then —
when the subset is truthy — the four bound checks (west, east, north, south). -/
def era_request (now : Timestamp) (cdsapirc_exists dir_exists : Bool)
    (date : DateInput) (out_dir : String) (subset : Option Polygon)
    (humid_param : String) (LOS : Bool) :
    Except DownloadError (Indict × String) :=
  if cdsapirc_exists = false then .error .missingCredentials
  else if dir_exists = false then .error (.missingDirectory out_dir)
  else
    match date.toTimestamp with
    | none => .error .unparsableDate
    | some d =>
      if Timestamp.lt d now = false then .error .dateInFuture
      else if d.year ≤ 1939 then .error .dateBefore1940
      else
        let indict := baseIndict humid_param d
        let out_fp := out_dir ++ "/ERA5_" ++ strfStamp d ++ ".nc"
        match subset with
        | none => .ok (indict, out_fp)
        | some p =>
          if p.is_empty then .ok (indict, out_fp)
          else
            if ¬(-180 < p.w ∧ p.w < 180) then .error (.boundOutside "West" p.w)
            else if ¬(-180 < p.e ∧ p.e < 180) then .error (.boundOutside "East" p.e)
            else if ¬(-90 < p.n ∧ p.n < 90) then .error (.boundOutside "North" p.n)
            else if ¬(-90 < p.s ∧ p.s < 90) then .error (.boundOutside "South" p.s)
            else
              .ok ({ indict with area := some (areaField p LOS) },
                   out_dir ++ "/ERA5_" ++ strfStamp d ++ "_" ++ suffixField p LOS ++ ".nc")

/-- The whole of `download_era`: run the validation/build phase, then, when
the derived path does not exist or `overwrite` is set, emit the
`c.retrieve('reanalysis-era5-pressure-levels', indict, target=out_fp)` call;
return `out_fp` in either case. `fs` gives file existence by path. -/
def download_era (now : Timestamp) (cdsapirc_exists dir_exists : Bool)
    (fs : String → Bool) (date : DateInput) (out_dir : String)
    (subset : Option Polygon) (humid_param : String := "specific_humidity")
    (LOS : Bool := false) (overwrite : Bool := false) :
    Except DownloadError EraOutcome × List Effect :=
  match era_request now cdsapirc_exists dir_exists date out_dir subset humid_param LOS with
  | .error err => (.error err, [])
  | .ok (indict, out_fp) =>
    (.ok ⟨out_fp, indict⟩,
     if fs out_fp = false ∨ overwrite = true
     then [.retrieve "reanalysis-era5-pressure-levels" indict out_fp]
     else [])

/-- The returned path of a `download_era` result, `none` on a validation
error. -/
def resultPath (o : Except DownloadError EraOutcome × List Effect) : Option String :=
  match o.1 with
  | .ok r => some r.out_fp
  | .error _ => none

/-- The `area` entry of the request dictionary of a `download_era` result,
`none` on a validation error. -/
def resultArea (o : Except DownloadError EraOutcome × List Effect) : Option (Option String) :=
  match o.1 with
  | .ok r => some r.indict.area
  | .error _ => none

/-- The path component of an `era_request` result. -/
def pathOf (r : Except DownloadError (Indict × String)) : Option String :=
  match r with
  | .ok q => some q.2
  | .error _ => none

/-- The line-of-sight expansion as the SPECIFICATION words it: both the west
and east deltas use the original width `|e − w|`, and both the south and north
deltas use the original height `|n − s|`. To be compared against `expandLOS`,
which is the translation of the source. -/
def specExpandLOS (w s e n : ℚ) : ℚ × ℚ × ℚ × ℚ :=
  (rmax (w - rabs (e - w)) (-180), rmax (s - rabs (n - s)) (-90),
   rmin (e + rabs (e - w)) 180, rmin (n + rabs (n - s)) 90)

lemma era_request_none_eq (now d : Timestamp) (dir hum : String) (los : Bool)
    (hd : Timestamp.lt d now = true) (hy : 1939 < d.year) :
    era_request now true true (.ts d) dir none hum los =
      .ok (baseIndict hum d, dir ++ "/ERA5_" ++ strfStamp d ++ ".nc") := by
  unfold era_request
  simp [DateInput.toTimestamp, hd, Nat.not_le.mpr hy]

lemma era_request_subset_eq (now d : Timestamp) (dir hum : String) (los : Bool) (p : Polygon)
    (hd : Timestamp.lt d now = true) (hy : 1939 < d.year) (hne : p.is_empty = false)
    (hw1 : -180 < p.w) (hw2 : p.w < 180) (he1 : -180 < p.e) (he2 : p.e < 180)
    (hn1 : -90 < p.n) (hn2 : p.n < 90) (hs1 : -90 < p.s) (hs2 : p.s < 90) :
    era_request now true true (.ts d) dir (some p) hum los =
      .ok ({ baseIndict hum d with area := some (areaField p los) },
           dir ++ "/ERA5_" ++ strfStamp d ++ "_" ++ suffixField p los ++ ".nc") := by
  unfold era_request
  simp [DateInput.toTimestamp, hd, Nat.not_le.mpr hy, hne,
        hw1, hw2, he1, he2, hn1, hn2, hs1, hs2]

lemma era_request_hum_map (now : Timestamp) (c dx : Bool) (dt : DateInput) (dir : String)
    (sub : Option Polygon) (h1 h2 : String) (los : Bool) :
    era_request now c dx dt dir sub h2 los
      = Except.map
          (fun q => ({ q.1 with «variable» := ["geopotential", "temperature", h2] }, q.2))
          (era_request now c dx dt dir sub h1 los) := by
  unfold era_request
  cases c with
  | false => rfl
  | true =>
    cases dx with
    | false => rfl
    | true =>
      cases hdt : dt.toTimestamp with
      | none => simp [Except.map]
      | some t =>
        by_cases hlt : Timestamp.lt t now = false
        · simp [hlt, Except.map]
        · by_cases hyr : t.year ≤ 1939
          · simp [hlt, hyr, Except.map]
          · cases sub with
            | none => simp [hlt, hyr, Except.map, baseIndict]
            | some p =>
              by_cases hemp : p.is_empty = true
              · simp [hlt, hyr, hemp, Except.map, baseIndict]
              · by_cases hW : (-180 < p.w ∧ p.w < 180)
                · by_cases hE : (-180 < p.e ∧ p.e < 180)
                  · by_cases hN : (-90 < p.n ∧ p.n < 90)
                    · by_cases hS : (-90 < p.s ∧ p.s < 90)
                      · simp [hlt, hyr, hemp, hW, hE, hN, hS, Except.map, baseIndict]
                      · simp [hlt, hyr, hemp, hW, hE, hN, hS, Except.map]
                    · simp [hlt, hyr, hemp, hW, hE, hN, Except.map]
                  · simp [hlt, hyr, hemp, hW, hE, Except.map]
                · simp [hlt, hyr, hemp, hW, Except.map]

lemma era_request_none_losIndep (now : Timestamp) (c dx : Bool) (dt : DateInput)
    (dir hum : String) (los1 los2 : Bool) :
    era_request now c dx dt dir none hum los1 = era_request now c dx dt dir none hum los2 := by
  unfold era_request
  cases c with
  | false => rfl
  | true =>
    cases dx with
    | false => rfl
    | true =>
      cases hdt : dt.toTimestamp with
      | none => rfl
      | some t => rfl

lemma era_request_ok_variable (now : Timestamp) (c dx : Bool) (dt : DateInput)
    (dir hum : String) (sub : Option Polygon) (los : Bool) (ind : Indict) (fp : String)
    (h : era_request now c dx dt dir sub hum los = .ok (ind, fp)) :
    ind.«variable» = ["geopotential", "temperature", hum] := by
  unfold era_request at h
  cases c with
  | false => exact absurd h (by simp)
  | true =>
    cases dx with
    | false => exact absurd h (by simp)
    | true =>
      cases hdt : dt.toTimestamp with
      | none => rw [hdt] at h; exact absurd h (by simp)
      | some t =>
        rw [hdt] at h
        by_cases hlt : Timestamp.lt t now = false
        · simp [hlt] at h
        · by_cases hyr : t.year ≤ 1939
          · simp [hlt, hyr] at h
          · cases sub with
            | none =>
              simp [hlt, hyr] at h
              rw [← h.1]
              rfl
            | some p =>
              by_cases hemp : p.is_empty = true
              · simp [hlt, hyr, hemp] at h
                rw [← h.1]
                rfl
              · by_cases hW : (-180 < p.w ∧ p.w < 180)
                · by_cases hE : (-180 < p.e ∧ p.e < 180)
                  · by_cases hN : (-90 < p.n ∧ p.n < 90)
                    · by_cases hS : (-90 < p.s ∧ p.s < 90)
                      · simp [hlt, hyr, hemp, hW.1, hW.2, hE.1, hE.2, hN.1, hN.2,
                              hS.1, hS.2] at h
                        rw [← h.1]
                        rfl
                      · simp [hlt, hyr, hemp, hW.1, hW.2, hE.1, hE.2, hN.1, hN.2, hS] at h
                    · simp [hlt, hyr, hemp, hW.1, hW.2, hE.1, hE.2, hN] at h
                  · simp [hlt, hyr, hemp, hW.1, hW.2, hE] at h
                · simp [hlt, hyr, hemp, hW] at h

lemma download_era_fst (now : Timestamp) (c dx : Bool) (fs : String → Bool) (dt : DateInput)
    (dir hum : String) (sub : Option Polygon) (los ow : Bool) :
    (download_era now c dx fs dt dir sub hum los ow).1
      = Except.map (fun q => EraOutcome.mk q.2 q.1) (era_request now c dx dt dir sub hum los) := by
  unfold download_era
  cases h : era_request now c dx dt dir sub hum los with
  | error e => rfl
  | ok q => cases q; rfl

lemma download_era_snd (now : Timestamp) (c dx : Bool) (fs : String → Bool) (dt : DateInput)
    (dir hum : String) (sub : Option Polygon) (los ow : Bool) (ind : Indict) (fp : String)
    (h : era_request now c dx dt dir sub hum los = .ok (ind, fp)) :
    (download_era now c dx fs dt dir sub hum los ow).2
      = (if fs fp = false ∨ ow = true
         then [Effect.retrieve "reanalysis-era5-pressure-levels" ind fp]
         else []) := by
  unfold download_era
  rw [h]

lemma resultPath_download_era (now : Timestamp) (c dx : Bool) (fs : String → Bool)
    (dt : DateInput) (dir hum : String) (sub : Option Polygon) (los ow : Bool) :
    resultPath (download_era now c dx fs dt dir sub hum los ow)
      = pathOf (era_request now c dx dt dir sub hum los) := by
  rw [resultPath, download_era_fst]
  cases era_request now c dx dt dir sub hum los with
  | error e => rfl
  | ok q => rfl

lemma pathOf_hum (now : Timestamp) (c dx : Bool) (dt : DateInput) (dir : String)
    (sub : Option Polygon) (h1 h2 : String) (los : Bool) :
    pathOf (era_request now c dx dt dir sub h1 los)
      = pathOf (era_request now c dx dt dir sub h2 los) := by
  rw [era_request_hum_map now c dx dt dir sub h1 h2 los]
  cases era_request now c dx dt dir sub h1 los with
  | error e => rfl
  | ok q => rfl

lemma isOk_hum (now : Timestamp) (c dx : Bool) (dt : DateInput) (dir : String)
    (sub : Option Polygon) (h1 h2 : String) (los : Bool) :
    (era_request now c dx dt dir sub h1 los).isOk
      = (era_request now c dx dt dir sub h2 los).isOk := by
  rw [era_request_hum_map now c dx dt dir sub h1 h2 los]
  cases era_request now c dx dt dir sub h1 los with
  | error e => rfl
  | ok q => rfl

/-- C1 (counterexample): at the spec's own example subset w=-10, e=10, s=-5,
n=5 with LOS set, the area the code sends is north/west/south/east =
25, -30, -15, 50 — not 15, -30, -15, 30 as the claimed symmetric formula gives:
the code's expansion (`expandLOS`) disagrees with the claimed formula
(`specExpandLOS`) at this input. -/
theorem C1_counterexample :
    resultArea (download_era ⟨2024, 1, 1, 0, 0⟩ true true (fun _ => false) (.ts ⟨2020, 1, 1, 0, 0⟩)
        "/tmp" (some ⟨-10, -5, 10, 5, false⟩) "specific_humidity" true false)
      = some (some "25.0/-30.0/-15.0/50.0")
    ∧ specExpandLOS (-10) (-5) 10 5 = ((-30 : ℚ), -15, 30, 15)
    ∧ expandLOS (-10) (-5) 10 5 ≠ specExpandLOS (-10) (-5) 10 5 := by
  refine ⟨by rfl, by decide, by decide⟩

/-- C1 (amended): when a truthy, in-bounds subset is given and the LOS flag
is set, the area sent in the request is the SEQUENTIAL expansion: new-west =
max(w − |e−w|, −180); new-east = min(e + |e − new-west|, 180), whose delta
uses the already-updated west; new-south = max(s − |n−s|, −90); new-north =
min(n + |n − new-south|, 90), whose delta uses the already-updated south;
joined as north/west/south/east. For the example subset w=-10, e=10, s=-5,
n=5 this gives w'=-30, e'=50, s'=-15, n'=25. -/
theorem C1_amended (now d : Timestamp) (dir hum : String) (fs : String → Bool) (ow : Bool)
    (p : Polygon)
    (hd : Timestamp.lt d now = true) (hy : 1939 < d.year) (hne : p.is_empty = false)
    (hw1 : -180 < p.w) (hw2 : p.w < 180) (he1 : -180 < p.e) (he2 : p.e < 180)
    (hn1 : -90 < p.n) (hn2 : p.n < 90) (hs1 : -90 < p.s) (hs2 : p.s < 90) :
    resultArea (download_era now true true fs (.ts d) dir (some p) hum true ow)
      = some (some (String.intercalate "/" (List.map pyFloatStr
          [rmin (p.n + rabs (p.n - rmax (p.s - rabs (p.n - p.s)) (-90))) 90,
           rmax (p.w - rabs (p.e - p.w)) (-180),
           rmax (p.s - rabs (p.n - p.s)) (-90),
           rmin (p.e + rabs (p.e - rmax (p.w - rabs (p.e - p.w)) (-180))) 180]))) := by
  have h := era_request_subset_eq now d dir hum true p hd hy hne hw1 hw2 he1 he2 hn1 hn2 hs1 hs2
  unfold resultArea
  rw [download_era_fst, h]
  simp [Except.map, areaField, finalBounds, expandLOS]

/-- C1 (witness): `C1_amended` applied at the spec's example subset, with the
resulting area string evaluated. -/
theorem C1_amended_witness :
    resultArea (download_era ⟨2024, 1, 1, 0, 0⟩ true true (fun _ => false) (.ts ⟨2020, 1, 1, 0, 0⟩)
        "/tmp" (some ⟨-10, -5, 10, 5, false⟩) "specific_humidity" true false)
      = some (some "25.0/-30.0/-15.0/50.0") := by
  have h := C1_amended ⟨2024, 1, 1, 0, 0⟩ ⟨2020, 1, 1, 0, 0⟩ "/tmp" "specific_humidity"
    (fun _ => false) false ⟨-10, -5, 10, 5, false⟩ (by decide) (by decide) rfl
    (by decide) (by decide) (by decide) (by decide)
    (by decide) (by decide) (by decide) (by decide)
  rw [h]
  rfl

/-- C2 (counterexample): two calls identical except for the line-of-sight
flag, on the same subset, return different output paths — the path is not
independent of the LOS flag. -/
theorem C2_counterexample :
    resultPath (download_era ⟨2024, 1, 1, 0, 0⟩ true true (fun _ => false) (.ts ⟨2020, 1, 1, 0, 0⟩)
        "/tmp" (some ⟨-10, -5, 10, 5, false⟩) "specific_humidity" false false)
      ≠ resultPath (download_era ⟨2024, 1, 1, 0, 0⟩ true true (fun _ => false) (.ts ⟨2020, 1, 1, 0, 0⟩)
        "/tmp" (some ⟨-10, -5, 10, 5, false⟩) "specific_humidity" true false) := by
  decide

/-- C2 (amended): the output path never depends on the humidity-variable
choice (or the overwrite flag), and when no subset is given it does not
depend on the LOS flag either; with a truthy subset the path encodes the
post-expansion bounds, so it can change with the LOS flag
(see `C2_counterexample`). -/
theorem C2_amended (now : Timestamp) (c dx : Bool) (fs : String → Bool) (dt : DateInput)
    (dir : String) (sub : Option Polygon) (h1 h2 : String) (los ow1 ow2 : Bool) :
    resultPath (download_era now c dx fs dt dir sub h1 los ow1)
      = resultPath (download_era now c dx fs dt dir sub h2 los ow2)
    ∧ resultPath (download_era now c dx fs dt dir none h1 true ow1)
      = resultPath (download_era now c dx fs dt dir none h1 false ow1) := by
  constructor
  · rw [resultPath_download_era, resultPath_download_era]
    exact pathOf_hum now c dx dt dir sub h1 h2 los
  · rw [resultPath_download_era, resultPath_download_era,
        era_request_none_losIndep now c dx dt dir h1 true false]

/-- C3 (counterexample): with the LOS flag set, the filename suffix carries
the EXPANDED bounds (-30.00, -15.00, 50.00, 25.00), not the original
(-10.00, -5.00, 10.00, 5.00) the claim requires regardless of the flag. -/
theorem C3_counterexample :
    resultPath (download_era ⟨2024, 1, 1, 0, 0⟩ true true (fun _ => false) (.ts ⟨2020, 1, 1, 0, 0⟩)
        "/tmp" (some ⟨-10, -5, 10, 5, false⟩) "specific_humidity" true false)
      = some "/tmp/ERA5_2020-01-01T00:00_-30.00_-15.00_50.00_25.00.nc"
    ∧ ("/tmp/ERA5_2020-01-01T00:00_-30.00_-15.00_50.00_25.00.nc" : String)
      ≠ "/tmp/ERA5_2020-01-01T00:00_-10.00_-5.00_10.00_5.00.nc" := by
  exact ⟨by rfl, by decide⟩

/-- C3 (amended): the output filename is `ERA5_<timestamp to the hour>.nc`;
with a truthy in-bounds subset the stem carries the bounds actually used for
the request — the original bounds when LOS is false, the `expandLOS`-expanded
bounds when LOS is true — each formatted to two decimals and joined by
underscores; with no subset there is no bound suffix. -/
theorem C3_amended (now d : Timestamp) (fs : String → Bool) (dir hum : String)
    (los ow : Bool) (p : Polygon)
    (hd : Timestamp.lt d now = true) (hy : 1939 < d.year) (hne : p.is_empty = false)
    (hw1 : -180 < p.w) (hw2 : p.w < 180) (he1 : -180 < p.e) (he2 : p.e < 180)
    (hn1 : -90 < p.n) (hn2 : p.n < 90) (hs1 : -90 < p.s) (hs2 : p.s < 90) :
    (∃ w s e n, finalBounds p los = (w, s, e, n)
       ∧ resultPath (download_era now true true fs (.ts d) dir (some p) hum los ow)
           = some (dir ++ "/ERA5_" ++ strfStamp d ++ "_"
               ++ String.intercalate "_" (List.map format2 [w, s, e, n]) ++ ".nc"))
    ∧ (los = false → finalBounds p los = (p.w, p.s, p.e, p.n))
    ∧ resultPath (download_era now true true fs (.ts d) dir none hum los ow)
        = some (dir ++ "/ERA5_" ++ strfStamp d ++ ".nc") := by
  refine ⟨?_, ?_, ?_⟩
  · rcases hfb : finalBounds p los with ⟨w, s, e, n⟩
    refine ⟨w, s, e, n, rfl, ?_⟩
    rw [resultPath_download_era,
        era_request_subset_eq now d dir hum los p hd hy hne hw1 hw2 he1 he2 hn1 hn2 hs1 hs2]
    simp [pathOf, suffixField, hfb]
  · intro h
    simp [finalBounds, h]
  · rw [resultPath_download_era, era_request_none_eq now d dir hum los hd hy]
    rfl

/-- C3 (witness): `C3_amended` applied at the example subset with LOS set. -/
theorem C3_amended_witness :
    (∃ w s e n, finalBounds ⟨-10, -5, 10, 5, false⟩ true = (w, s, e, n)
       ∧ resultPath (download_era ⟨2024, 1, 1, 0, 0⟩ true true (fun _ => false)
             (.ts ⟨2020, 1, 1, 0, 0⟩) "/tmp" (some ⟨-10, -5, 10, 5, false⟩)
             "specific_humidity" true false)
           = some ("/tmp" ++ "/ERA5_" ++ strfStamp ⟨2020, 1, 1, 0, 0⟩ ++ "_"
               ++ String.intercalate "_" (List.map format2 [w, s, e, n]) ++ ".nc"))
    ∧ (true = false → finalBounds ⟨-10, -5, 10, 5, false⟩ true = (-10, -5, 10, 5))
    ∧ resultPath (download_era ⟨2024, 1, 1, 0, 0⟩ true true (fun _ => false)
        (.ts ⟨2020, 1, 1, 0, 0⟩) "/tmp" none "specific_humidity" true false)
      = some ("/tmp" ++ "/ERA5_" ++ strfStamp ⟨2020, 1, 1, 0, 0⟩ ++ ".nc") :=
  C3_amended ⟨2024, 1, 1, 0, 0⟩ ⟨2020, 1, 1, 0, 0⟩ (fun _ => false) "/tmp" "specific_humidity"
    true false ⟨-10, -5, 10, 5, false⟩ (by decide) (by decide) rfl
    (by decide) (by decide) (by decide) (by decide)
    (by decide) (by decide) (by decide) (by decide)

/-- C4 (counterexample): a timestamp of exactly 1940-01-01T00:00 is NOT
strictly later than 1 January 1940, so by the claim it must raise — but the
code's check is `date.year > 1939`, which accepts it. -/
theorem C4_counterexample :
    (download_era ⟨2024, 1, 1, 0, 0⟩ true true (fun _ => false) (.ts ⟨1940, 1, 1, 0, 0⟩)
        "/tmp" none "specific_humidity" false false).1.isOk = true := by
  decide

/-- C4 (amended): with the other preconditions satisfied and no subset, the
call succeeds iff the timestamp is strictly before the current moment AND its
calendar year is at least 1940; otherwise it fails with the matching date
error before any retrieval. So 1939-12-31 raises, while both 1940-01-01 and
1940-01-02 are accepted — the cut is the year boundary, not "strictly after
1 January 1940". -/
theorem C4_amended (now d : Timestamp) (fs : String → Bool) (dir hum : String)
    (los ow : Bool) :
    ((download_era now true true fs (.ts d) dir none hum los ow).1.isOk = true
       ↔ (Timestamp.lt d now = true ∧ 1939 < d.year))
    ∧ (Timestamp.lt d now = false →
        (download_era now true true fs (.ts d) dir none hum los ow).1
          = .error .dateInFuture)
    ∧ (Timestamp.lt d now = true → d.year ≤ 1939 →
        (download_era now true true fs (.ts d) dir none hum los ow).1
          = .error .dateBefore1940) := by
  rw [download_era_fst]
  unfold era_request
  by_cases hlt : Timestamp.lt d now = false
  · simp [hlt, DateInput.toTimestamp, Except.map, Except.isOk, Except.toBool]
  · rw [Bool.not_eq_false] at hlt
    by_cases hyr : d.year ≤ 1939
    · simp [hlt, hyr, Nat.not_lt.mpr hyr, DateInput.toTimestamp, Except.map, Except.isOk,
            Except.toBool]
    · simp [hlt, hyr, Nat.not_le.mp hyr, DateInput.toTimestamp, Except.map, Except.isOk,
            Except.toBool]

/-- C4 (witness): `C4_amended` instantiated at 1939-12-31, which the
(amended) characterization rejects as before the earliest supported year. -/
theorem C4_amended_witness :
    ((download_era ⟨2024, 1, 1, 0, 0⟩ true true (fun _ => false) (.ts ⟨1939, 12, 31, 0, 0⟩)
        "/tmp" none "specific_humidity" false false).1.isOk = true
       ↔ (Timestamp.lt ⟨1939, 12, 31, 0, 0⟩ ⟨2024, 1, 1, 0, 0⟩ = true ∧ 1939 < 1939))
    ∧ (Timestamp.lt ⟨1939, 12, 31, 0, 0⟩ ⟨2024, 1, 1, 0, 0⟩ = false →
        (download_era ⟨2024, 1, 1, 0, 0⟩ true true (fun _ => false) (.ts ⟨1939, 12, 31, 0, 0⟩)
          "/tmp" none "specific_humidity" false false).1 = .error .dateInFuture)
    ∧ (Timestamp.lt ⟨1939, 12, 31, 0, 0⟩ ⟨2024, 1, 1, 0, 0⟩ = true → 1939 ≤ 1939 →
        (download_era ⟨2024, 1, 1, 0, 0⟩ true true (fun _ => false) (.ts ⟨1939, 12, 31, 0, 0⟩)
          "/tmp" none "specific_humidity" false false).1 = .error .dateBefore1940) :=
  C4_amended ⟨2024, 1, 1, 0, 0⟩ ⟨1939, 12, 31, 0, 0⟩ (fun _ => false) "/tmp" "specific_humidity"
    false false

/-- C5: on any successful call, the retrieval collaborator is invoked iff the
derived path does not exist or overwrite is set; a second identical call with
the target now present and overwrite false skips retrieval and returns the
same outcome; and overwrite true always retrieves. -/
theorem C5_cache_decision (now : Timestamp) (c dx : Bool) (fs : String → Bool) (dt : DateInput)
    (dir hum : String) (sub : Option Polygon) (los ow : Bool) (r : EraOutcome)
    (hok : (download_era now c dx fs dt dir sub hum los ow).1 = .ok r) :
    ((download_era now c dx fs dt dir sub hum los ow).2
        = [.retrieve "reanalysis-era5-pressure-levels" r.indict r.out_fp]
      ↔ (fs r.out_fp = false ∨ ow = true))
    ∧ download_era now c dx (fun f => if f = r.out_fp then true else fs f) dt dir sub hum los false
        = (.ok r, [])
    ∧ (download_era now c dx fs dt dir sub hum los true).2
        = [.retrieve "reanalysis-era5-pressure-levels" r.indict r.out_fp] := by
  rw [download_era_fst] at hok
  rcases h : era_request now c dx dt dir sub hum los with e | q
  · rw [h] at hok
    exact absurd hok (by simp [Except.map])
  · obtain ⟨ind, fp⟩ := q
    rw [h] at hok
    simp only [Except.map] at hok
    injection hok with hr
    subst hr
    unfold download_era
    rw [h]
    refine ⟨?_, ?_, ?_⟩
    · by_cases hc : fs fp = false ∨ ow = true
      · simp [hc]
      · simp [hc]
    · simp
    · simp

set_option maxHeartbeats 2000000 in
/-- C5 (witness): `C5_cache_decision` at a no-subset call on an empty
filesystem. -/
theorem C5_cache_decision_witness :
    ((download_era ⟨2024, 1, 1, 0, 0⟩ true true (fun _ => false) (.ts ⟨2020, 1, 1, 0, 0⟩)
        "/tmp" none "specific_humidity" false false).2
        = [.retrieve "reanalysis-era5-pressure-levels"
             (baseIndict "specific_humidity" ⟨2020, 1, 1, 0, 0⟩) "/tmp/ERA5_2020-01-01T00:00.nc"]
      ↔ ((fun _ => false : String → Bool) "/tmp/ERA5_2020-01-01T00:00.nc" = false ∨ false = true))
    ∧ download_era ⟨2024, 1, 1, 0, 0⟩ true true
        (fun f => if f = "/tmp/ERA5_2020-01-01T00:00.nc" then true
                  else (fun _ => false : String → Bool) f)
        (.ts ⟨2020, 1, 1, 0, 0⟩) "/tmp" none "specific_humidity" false false
        = (.ok ⟨"/tmp/ERA5_2020-01-01T00:00.nc",
                baseIndict "specific_humidity" ⟨2020, 1, 1, 0, 0⟩⟩, [])
    ∧ (download_era ⟨2024, 1, 1, 0, 0⟩ true true (fun _ => false) (.ts ⟨2020, 1, 1, 0, 0⟩)
        "/tmp" none "specific_humidity" false true).2
        = [.retrieve "reanalysis-era5-pressure-levels"
             (baseIndict "specific_humidity" ⟨2020, 1, 1, 0, 0⟩)
             "/tmp/ERA5_2020-01-01T00:00.nc"] :=
  C5_cache_decision ⟨2024, 1, 1, 0, 0⟩ true true (fun _ => false) (.ts ⟨2020, 1, 1, 0, 0⟩)
    "/tmp" "specific_humidity" none false false
    ⟨"/tmp/ERA5_2020-01-01T00:00.nc", baseIndict "specific_humidity" ⟨2020, 1, 1, 0, 0⟩⟩
    (by rfl)

/-- C6: with a truthy subset and the other preconditions satisfied, any bound
outside the strict open ranges west, east in (-180, 180), north, south in
(-90, 90) — including exact boundary values such as 180 or -90 — makes the
call fail with the error naming exactly that offending bound and its value:
a violating west bound is blamed as "West" with value w; with west in range,
a violating east bound as "East" with value e; with west and east in range,
a violating north bound as "North" with value n; with those three in range,
a violating south bound as "South" with value s (the source's check order). -/
theorem C6_bound_validation (now d : Timestamp) (fs : String → Bool) (dir hum : String)
    (los ow : Bool) (p : Polygon)
    (hd : Timestamp.lt d now = true) (hy : 1939 < d.year) (hne : p.is_empty = false) :
    (¬(-180 < p.w ∧ p.w < 180) →
       (download_era now true true fs (.ts d) dir (some p) hum los ow).1
         = .error (.boundOutside "West" p.w))
    ∧ ((-180 < p.w ∧ p.w < 180) → ¬(-180 < p.e ∧ p.e < 180) →
       (download_era now true true fs (.ts d) dir (some p) hum los ow).1
         = .error (.boundOutside "East" p.e))
    ∧ ((-180 < p.w ∧ p.w < 180) → (-180 < p.e ∧ p.e < 180) → ¬(-90 < p.n ∧ p.n < 90) →
       (download_era now true true fs (.ts d) dir (some p) hum los ow).1
         = .error (.boundOutside "North" p.n))
    ∧ ((-180 < p.w ∧ p.w < 180) → (-180 < p.e ∧ p.e < 180) → (-90 < p.n ∧ p.n < 90) →
       ¬(-90 < p.s ∧ p.s < 90) →
       (download_era now true true fs (.ts d) dir (some p) hum los ow).1
         = .error (.boundOutside "South" p.s)) := by
  refine ⟨?_, ?_, ?_, ?_⟩
  · intro hW
    rw [download_era_fst]
    unfold era_request
    simp [DateInput.toTimestamp, hd, Nat.not_le.mpr hy, hne, hW, Except.map]
  · intro hW hE
    rw [download_era_fst]
    unfold era_request
    simp [DateInput.toTimestamp, hd, Nat.not_le.mpr hy, hne, hW.1, hW.2, hE, Except.map]
  · intro hW hE hN
    rw [download_era_fst]
    unfold era_request
    simp [DateInput.toTimestamp, hd, Nat.not_le.mpr hy, hne,
          hW.1, hW.2, hE.1, hE.2, hN, Except.map]
  · intro hW hE hN hS
    rw [download_era_fst]
    unfold era_request
    simp [DateInput.toTimestamp, hd, Nat.not_le.mpr hy, hne,
          hW.1, hW.2, hE.1, hE.2, hN.1, hN.2, hS, Except.map]

/-- C6 (witness): `C6_bound_validation` at a subset whose west bound is
exactly 180 — the first conjunct applies, so the boundary value is rejected
(not clamped) and the error names "West" with value 180. -/
theorem C6_bound_validation_witness :
    (¬((-180 : ℚ) < 180 ∧ (180 : ℚ) < 180) →
       (download_era ⟨2024, 1, 1, 0, 0⟩ true true (fun _ => false)
          (.ts ⟨2020, 1, 1, 0, 0⟩) "/tmp" (some ⟨180, -5, 10, 5, false⟩)
          "specific_humidity" false false).1
         = .error (.boundOutside "West" 180))
    ∧ (((-180 : ℚ) < 180 ∧ (180 : ℚ) < 180) → ¬((-180 : ℚ) < 10 ∧ (10 : ℚ) < 180) →
       (download_era ⟨2024, 1, 1, 0, 0⟩ true true (fun _ => false)
          (.ts ⟨2020, 1, 1, 0, 0⟩) "/tmp" (some ⟨180, -5, 10, 5, false⟩)
          "specific_humidity" false false).1
         = .error (.boundOutside "East" 10))
    ∧ (((-180 : ℚ) < 180 ∧ (180 : ℚ) < 180) → ((-180 : ℚ) < 10 ∧ (10 : ℚ) < 180) →
       ¬((-90 : ℚ) < 5 ∧ (5 : ℚ) < 90) →
       (download_era ⟨2024, 1, 1, 0, 0⟩ true true (fun _ => false)
          (.ts ⟨2020, 1, 1, 0, 0⟩) "/tmp" (some ⟨180, -5, 10, 5, false⟩)
          "specific_humidity" false false).1
         = .error (.boundOutside "North" 5))
    ∧ (((-180 : ℚ) < 180 ∧ (180 : ℚ) < 180) → ((-180 : ℚ) < 10 ∧ (10 : ℚ) < 180) →
       ((-90 : ℚ) < 5 ∧ (5 : ℚ) < 90) → ¬((-90 : ℚ) < -5 ∧ (-5 : ℚ) < 90) →
       (download_era ⟨2024, 1, 1, 0, 0⟩ true true (fun _ => false)
          (.ts ⟨2020, 1, 1, 0, 0⟩) "/tmp" (some ⟨180, -5, 10, 5, false⟩)
          "specific_humidity" false false).1
         = .error (.boundOutside "South" (-5))) :=
  C6_bound_validation ⟨2024, 1, 1, 0, 0⟩ ⟨2020, 1, 1, 0, 0⟩ (fun _ => false) "/tmp"
    "specific_humidity" false false ⟨180, -5, 10, 5, false⟩
    (by decide) (by decide) rfl

/-- C7: any validation failure makes the call return the error with NO
external retrieval call performed — the effect list is empty, so nothing is
requested and nothing is written. -/
theorem C7_fail_fast (now : Timestamp) (c dx : Bool) (fs : String → Bool) (dt : DateInput)
    (dir hum : String) (sub : Option Polygon) (los ow : Bool) (err : DownloadError)
    (herr : (download_era now c dx fs dt dir sub hum los ow).1 = .error err) :
    (download_era now c dx fs dt dir sub hum los ow).2 = [] := by
  unfold download_era at herr ⊢
  rcases h : era_request now c dx dt dir sub hum los with e | q
  · rfl
  · obtain ⟨ind, fp⟩ := q
    rw [h] at herr
    simp at herr

/-- C7 (witness): `C7_fail_fast` at a call with the credentials file
missing. -/
theorem C7_fail_fast_witness :
    (download_era ⟨2024, 1, 1, 0, 0⟩ false true (fun _ => false) (.ts ⟨2020, 1, 1, 0, 0⟩)
        "/tmp" none "specific_humidity" false false).2 = [] :=
  C7_fail_fast ⟨2024, 1, 1, 0, 0⟩ false true (fun _ => false) (.ts ⟨2020, 1, 1, 0, 0⟩)
    "/tmp" "specific_humidity" none false false .missingCredentials (by rfl)

lemma era_request_empty_eq (now d : Timestamp) (dir hum : String) (los : Bool) (p : Polygon)
    (hd : Timestamp.lt d now = true) (hy : 1939 < d.year) (hemp : p.is_empty = true) :
    era_request now true true (.ts d) dir (some p) hum los =
      .ok (baseIndict hum d, dir ++ "/ERA5_" ++ strfStamp d ++ ".nc") := by
  unfold era_request
  simp [DateInput.toTimestamp, hd, Nat.not_le.mpr hy, hemp]

/-- C8: on every valid input the built request has product type "reanalysis",
netCDF format, variables [geopotential, temperature, chosen humidity], the
fixed 37 millibar pressure levels, date `YYYY-MM-DD`, time `HH:00` with the
minutes dropped, and — for a truthy subset — an area of the (possibly
LOS-expanded) north/west/south/east bounds joined by `/`; with no subset
there is no area entry. -/
theorem C8_request_fields (now d : Timestamp) (fs : String → Bool) (dir hum : String)
    (sub : Option Polygon) (los ow : Bool)
    (hd : Timestamp.lt d now = true) (hy : 1939 < d.year)
    (hb : ∀ p, sub = some p → p.is_empty = false →
          (-180 < p.w ∧ p.w < 180) ∧ (-180 < p.e ∧ p.e < 180)
          ∧ (-90 < p.n ∧ p.n < 90) ∧ (-90 < p.s ∧ p.s < 90)) :
    ∃ r, (download_era now true true fs (.ts d) dir sub hum los ow).1 = .ok r
      ∧ r.indict.product_type = "reanalysis"
      ∧ r.indict.format = "netcdf"
      ∧ r.indict.«variable» = ["geopotential", "temperature", hum]
      ∧ r.indict.pressure_level = era_pressure_lvls
      ∧ r.indict.pressure_level.length = 37
      ∧ r.indict.date = pad4 d.year ++ "-" ++ pad2 d.month ++ "-" ++ pad2 d.day
      ∧ r.indict.time = pad2 d.hour ++ ":00"
      ∧ (∀ q, sub = some q → q.is_empty = false →
           ∃ w s e n, finalBounds q los = (w, s, e, n)
             ∧ r.indict.area
                 = some (String.intercalate "/" (List.map pyFloatStr [n, w, s, e])))
      ∧ (sub = none → r.indict.area = none) := by
  cases sub with
  | none =>
    refine ⟨⟨dir ++ "/ERA5_" ++ strfStamp d ++ ".nc", baseIndict hum d⟩, ?_, rfl, rfl, rfl,
      rfl, by rfl, rfl, rfl, ?_, fun _ => rfl⟩
    · rw [download_era_fst, era_request_none_eq now d dir hum los hd hy]
      rfl
    · intro q hq
      exact absurd hq (by simp)
  | some p =>
    by_cases hemp : p.is_empty = true
    · refine ⟨⟨dir ++ "/ERA5_" ++ strfStamp d ++ ".nc", baseIndict hum d⟩, ?_, rfl, rfl, rfl,
        rfl, by rfl, rfl, rfl, ?_, fun h => nomatch h⟩
      · rw [download_era_fst, era_request_empty_eq now d dir hum los p hd hy hemp]
        rfl
      · intro q hq hqe
        injection hq with hq2
        rw [← hq2, hemp] at hqe
        exact absurd hqe (by simp)
    · have hne : p.is_empty = false := by simpa using hemp
      obtain ⟨hWp, hEp, hNp, hSp⟩ := hb p rfl hne
      refine ⟨⟨dir ++ "/ERA5_" ++ strfStamp d ++ "_" ++ suffixField p los ++ ".nc",
               { baseIndict hum d with area := some (areaField p los) }⟩, ?_, rfl, rfl, rfl,
              rfl, by rfl, rfl, rfl, ?_, fun h => nomatch h⟩
      · rw [download_era_fst, era_request_subset_eq now d dir hum los p hd hy hne
            hWp.1 hWp.2 hEp.1 hEp.2 hNp.1 hNp.2 hSp.1 hSp.2]
        rfl
      · intro q hq hqe
        injection hq with hq2
        subst hq2
        rcases hfb : finalBounds p los with ⟨w, s, e, n⟩
        exact ⟨w, s, e, n, rfl, by simp [areaField, hfb]⟩

/-- C8 (witness): `C8_request_fields` at a valid subset call. -/
theorem C8_request_fields_witness :
    ∃ r, (download_era ⟨2024, 1, 1, 0, 0⟩ true true (fun _ => false) (.ts ⟨2020, 1, 1, 0, 0⟩)
        "/tmp" (some ⟨-10, -5, 10, 5, false⟩) "relative_humidity" false false).1 = .ok r
      ∧ r.indict.product_type = "reanalysis"
      ∧ r.indict.format = "netcdf"
      ∧ r.indict.«variable» = ["geopotential", "temperature", "relative_humidity"]
      ∧ r.indict.pressure_level = era_pressure_lvls
      ∧ r.indict.pressure_level.length = 37
      ∧ r.indict.date = pad4 2020 ++ "-" ++ pad2 1 ++ "-" ++ pad2 1
      ∧ r.indict.time = pad2 0 ++ ":00"
      ∧ (∀ q, (some ⟨-10, -5, 10, 5, false⟩ : Option Polygon) = some q → q.is_empty = false →
           ∃ w s e n, finalBounds q false = (w, s, e, n)
             ∧ r.indict.area
                 = some (String.intercalate "/" (List.map pyFloatStr [n, w, s, e])))
      ∧ ((some ⟨-10, -5, 10, 5, false⟩ : Option Polygon) = none → r.indict.area = none) :=
  C8_request_fields ⟨2024, 1, 1, 0, 0⟩ ⟨2020, 1, 1, 0, 0⟩ (fun _ => false) "/tmp"
    "relative_humidity" (some ⟨-10, -5, 10, 5, false⟩) false false (by decide) (by decide)
    (by rintro q hq h; cases hq; decide)

/-- C9: the humidity parameter is never validated — replacing it by any other
string cannot change whether the call succeeds — and on success the given
string appears verbatim as the third entry of the request's variable list. -/
theorem C9_humidity_unchecked (now : Timestamp) (c dx : Bool) (fs : String → Bool)
    (dt : DateInput) (dir : String) (sub : Option Polygon) (h1 h2 : String) (los ow : Bool) :
    ((download_era now c dx fs dt dir sub h1 los ow).1.isOk
       = (download_era now c dx fs dt dir sub h2 los ow).1.isOk)
    ∧ (∀ r, (download_era now c dx fs dt dir sub h1 los ow).1 = .ok r →
         r.indict.«variable» = ["geopotential", "temperature", h1]) := by
  constructor
  · rw [download_era_fst, download_era_fst, era_request_hum_map now c dx dt dir sub h1 h2 los]
    cases era_request now c dx dt dir sub h1 los <;> rfl
  · intro r hr
    rw [download_era_fst] at hr
    rcases h : era_request now c dx dt dir sub h1 los with e | q
    · rw [h] at hr
      exact absurd hr (by simp [Except.map])
    · obtain ⟨ind, fp⟩ := q
      rw [h] at hr
      simp only [Except.map] at hr
      injection hr with hr2
      subst hr2
      exact era_request_ok_variable now c dx dt dir h1 sub los ind fp h

/-- C9 (witness): `C9_humidity_unchecked` with a nonsense humidity string. -/
theorem C9_humidity_unchecked_witness :
    ((download_era ⟨2024, 1, 1, 0, 0⟩ true true (fun _ => false) (.ts ⟨2020, 1, 1, 0, 0⟩)
        "/tmp" none "no_such_humidity" false false).1.isOk
       = (download_era ⟨2024, 1, 1, 0, 0⟩ true true (fun _ => false) (.ts ⟨2020, 1, 1, 0, 0⟩)
        "/tmp" none "specific_humidity" false false).1.isOk)
    ∧ (∀ r, (download_era ⟨2024, 1, 1, 0, 0⟩ true true (fun _ => false) (.ts ⟨2020, 1, 1, 0, 0⟩)
        "/tmp" none "no_such_humidity" false false).1 = .ok r →
         r.indict.«variable» = ["geopotential", "temperature", "no_such_humidity"]) :=
  C9_humidity_unchecked ⟨2024, 1, 1, 0, 0⟩ true true (fun _ => false) (.ts ⟨2020, 1, 1, 0, 0⟩)
    "/tmp" none "no_such_humidity" "specific_humidity" false false

/-- C10: a falsy (empty) subset geometry is treated exactly as an absent
subset — identical result and effects, its bounds never validated, no area
entry and no filename suffix. -/
theorem C10_falsy_subset (now : Timestamp) (c dx : Bool) (fs : String → Bool) (dt : DateInput)
    (dir hum : String) (p : Polygon) (los ow : Bool) (hemp : p.is_empty = true) :
    download_era now c dx fs dt dir (some p) hum los ow
      = download_era now c dx fs dt dir none hum los ow := by
  unfold download_era
  have h : era_request now c dx dt dir (some p) hum los
      = era_request now c dx dt dir none hum los := by
    unfold era_request
    cases c with
    | false => rfl
    | true =>
      cases dx with
      | false => rfl
      | true =>
        cases hdt : dt.toTimestamp with
        | none => rfl
        | some t =>
          by_cases hlt : Timestamp.lt t now = false
          · simp [hlt]
          · by_cases hyr : t.year ≤ 1939
            · simp [hlt, hyr]
            · simp [hlt, hyr, hemp]
  rw [h]

/-- C10 (witness): `C10_falsy_subset` at an empty polygon whose bounds are
far outside the globe: no bound validation is triggered. -/
theorem C10_falsy_subset_witness :
    download_era ⟨2024, 1, 1, 0, 0⟩ true true (fun _ => false) (.ts ⟨2020, 1, 1, 0, 0⟩) "/tmp"
        (some ⟨-999, 123, 500, -700, true⟩) "specific_humidity" true false
      = download_era ⟨2024, 1, 1, 0, 0⟩ true true (fun _ => false) (.ts ⟨2020, 1, 1, 0, 0⟩) "/tmp"
        none "specific_humidity" true false :=
  C10_falsy_subset ⟨2024, 1, 1, 0, 0⟩ true true (fun _ => false) (.ts ⟨2020, 1, 1, 0, 0⟩) "/tmp"
    "specific_humidity" ⟨-999, 123, 500, -700, true⟩ true false rfl
